import Mathlib

/-!
Verification development for the Deepdub speaker-diarization glue layer
(`deepdub/deepdub_clusterer.py`).

The source file wraps an external speaker-embedding network
(`deep_speaker`), sklearn KMeans and a plotting library.  This file is a
shallow embedding of that source: pandas DataFrames become ordered lists
of records, file access becomes an explicit `FS` map, exceptions become
`Except PyErr`, and the mutable `self.sentence_df` state becomes explicit
state passing.  External collaborators (read_mfcc, the embedding model,
KMeans) are modelled from the specification where their code is not part
of the repository; each such definition carries a doc comment saying so.
-/

/- Batteries marks the arithmetic on `Rat` irreducible; concrete runs of
the clustering model are evaluated by `decide`, which needs to unfold
it. -/
attribute [local semireducible] Rat.mul Rat.add Rat.sub Rat.inv

/-- Errors observable from Python execution of the source. -/
inductive PyErr where
  /-- NameError: a bare name is not bound in any enclosing scope. -/
  | nameError (n : String)
  /-- The error raised when reading an audio file whose path does not exist;
  it identifies the missing path (resolution failure). -/
  | fileNotFound (path : String)
  /-- TypeError, e.g. calling a function with the wrong number of arguments. -/
  | typeError (msg : String)
  /-- Failure of the model-weight load at construction (missing or
  incompatible weight file). -/
  | loadWeightsError (path : String)
  /-- An error raised inside library code (numpy conversion or sklearn
  KMeans validation), not by the wrapper itself. -/
  | libraryError (msg : String)
  /-- A descriptive parameter-validation error raised by `cluster` itself
  before invoking the clustering routine.  This constructor is the spec's
  vocabulary: no source-translated definition below ever produces it. -/
  | paramError (msg : String)
deriving DecidableEq, Repr

/-- An utterance record: one row of the `sentence_df` DataFrame.  `hash` and
`sentence` are supplied upstream; `embedding` and `label` are absent
(`none`) until the corresponding stage runs. -/
structure Row where
  hash : String
  sentence : String
  embedding : Option (List ℚ) := none
  label : Option Nat := none
deriving DecidableEq, Repr

/-- The record collection: an ordered table of utterance records. -/
structure DataFrame where
  rows : List Row
deriving DecidableEq, Repr

/-- An MFCC feature sequence (frames of rational feature values), the
time-frequency representation `read_mfcc` produces. -/
abbrev Mfcc := List (List ℚ)

/-- The filesystem, as a map from paths to the MFCC content readable at
that path (`none` = no file at the path). -/
abbrev FS := String → Option Mfcc

/-- Names bound in the module's global namespace by the source file's
imports and top-level definitions.  Bare names inside method bodies that
are not parameters or locals resolve against this list. -/
def moduleGlobals : List String :=
  ["random", "np", "read_mfcc", "sample_from_mfcc", "SAMPLE_RATE",
   "NUM_FRAMES", "DeepSpeakerModel", "KMeans", "PCA", "pd",
   "DeepdubClusterer"]

/-- Modelled from the spec: `deep_speaker.constants.NUM_FRAMES`, the fixed
number of consecutive frames extracted as model input (external constant,
not part of this repository). -/
def NUM_FRAMES : Nat := 160

/-- Modelled from the spec: `deep_speaker.audio.read_mfcc` (external).
Reading a path with no file fails with an error identifying the missing
path; otherwise it yields the file's feature sequence. -/
def read_mfcc (fs : FS) (path : String) : Except PyErr Mfcc :=
  match fs path with
  | some m => .ok m
  | none => .error (.fileNotFound path)

/-- Modelled from the spec: `deep_speaker.batcher.sample_from_mfcc`
(external), which deterministically extracts a fixed number of consecutive
frames suitable as model input. -/
def sample_from_mfcc (m : Mfcc) (numFrames : Nat) : Mfcc :=
  m.take numFrames

/-- Default weight path used by `__init__` when `model_path` is `None`. -/
def defaultModelPath : String :=
  "./pretrained_models/ResCNN_triplet_training_checkpoint_265.h5"

/-- The weight path `__init__` loads: the explicit `model_path` when given,
else the default. -/
def chosenModelPath (model_path : Option String) : String :=
  model_path.getD defaultModelPath

/-- `self.AUDIO_OUTPUT_DIR` as set by `__init__`:
the f-string `./output_dir/{project_name}/audio_segments`. -/
def audioOutputDir (project_name : String) : String :=
  "./output_dir/" ++ project_name ++ "/audio_segments"

/-- The segment resolver used inside `__generate_embedding`: the f-string
`{AUDIO_OUTPUT_DIR}/{h}_vocals.wav`. -/
def segmentPath (outputDir h : String) : String :=
  outputDir ++ "/" ++ h ++ "_vocals.wav"

/-- The orchestration object.  `model` is the loaded embedding model's
predict function (an external black box, fixed at construction). -/
structure DeepdubClusterer where
  model : Mfcc → List ℚ
  AUDIO_OUTPUT_DIR : String
  sentence_df : DataFrame

/-- `DeepdubClusterer.__init__`: stores the project-derived audio output
directory and the sentence DataFrame, and eagerly loads the model weights
from `model_path` (or the default path) via `load_weights`.  `weightsOk`
models whether the weight file at a path is present and compatible, and
`loaded` the predict function a successful load yields; per the spec,
`load_weights` fails if the file is missing or incompatible, so a bad
weight file makes construction itself fail. -/
def DeepdubClusterer.init (weightsOk : String → Bool) (loaded : Mfcc → List ℚ)
    (project_name : String) (sentence_df : DataFrame)
    (model_path : Option String) : Except PyErr DeepdubClusterer :=
  if weightsOk (chosenModelPath model_path) then
    .ok { model := loaded
          AUDIO_OUTPUT_DIR := audioOutputDir project_name
          sentence_df := sentence_df }
  else
    .error (.loadWeightsError (chosenModelPath model_path))

/-- `DeepdubClusterer.__generate_embedding`: reads the segment file for
hash `h`, samples NUM_FRAMES frames, then evaluates
`model.m.predict(...)`.  The source references the bare name `model`
(not `self.model`); inside the method, `model` is neither a local nor a
parameter, so Python resolves it against the module globals — where it is
not bound — and raises NameError before any prediction happens.  Were the
name bound, the predicted `(1, 512)` output would be reshaped to `(512,)`,
which raises a library error if the vector's size is not 512. -/
def generateEmbedding (fs : FS) (c : DeepdubClusterer) (h : String) :
    Except PyErr (List ℚ) :=
  match read_mfcc fs (segmentPath c.AUDIO_OUTPUT_DIR h) with
  | .error e => .error e
  | .ok m =>
    let mfcc := sample_from_mfcc m NUM_FRAMES
    if "model" ∈ moduleGlobals then
      let embedding := c.model mfcc
      if embedding.length = 512 then
        .ok embedding
      else
        .error (.libraryError "cannot reshape array into shape 512")
    else
      .error (.nameError "model")

/-- The per-cell applymap of `__generate_embedding` over the `hash` column,
in row order; the first exception propagates. -/
def mapEmbeddings (fs : FS) (c : DeepdubClusterer) :
    List Row → Except PyErr (List (List ℚ))
  | [] => .ok []
  | r :: rs =>
    match generateEmbedding fs c r.hash with
    | .error e => .error e
    | .ok e =>
      match mapEmbeddings fs c rs with
      | .error e => .error e
      | .ok es => .ok (e :: es)

/-- The column assignment `sentence_df[["embedding"]] = ...`: row `i`
receives embedding `i`. -/
def applyEmbeddings (c : DeepdubClusterer) (es : List (List ℚ)) :
    DeepdubClusterer :=
  { c with sentence_df := ⟨List.zipWith
      (fun r e => { r with embedding := some e }) c.sentence_df.rows es⟩ }

/-- See `get_embeddings`: the outcome once the applymap result is known. -/
def finishEmbeddings (c : DeepdubClusterer)
    (res : Except PyErr (List (List ℚ))) :
    Except PyErr DataFrame × DeepdubClusterer :=
  match res with
  | .error e => (.error e, c)
  | .ok es => (.ok (applyEmbeddings c es).sentence_df, applyEmbeddings c es)

/-- `DeepdubClusterer.get_embeddings`: applies `__generate_embedding` to
the `hash` column and assigns the result to the `embedding` column.  The
assignment happens only after the whole applymap succeeds; if any cell
raises, the exception propagates and `sentence_df` is left untouched.
Returns the (result, post-state) pair of the in-place mutation. -/
def get_embeddings (fs : FS) (c : DeepdubClusterer) :
    Except PyErr DataFrame × DeepdubClusterer :=
  finishEmbeddings c (mapEmbeddings fs c c.sentence_df.rows)

/-- `generate_scatter_3d` is declared in the source with zero parameters
(no `self`). -/
def generate_scatter_3d_paramCount : Nat := 0

/-- Python call semantics for a bound method: the instance is passed as an
implicit first positional argument; if the argument count does not match
the declared parameter count, TypeError is raised before the body runs. -/
def invokeBoundMethod (paramCount argsGiven : Nat)
    (body : Unit → Except PyErr Unit × DeepdubClusterer)
    (c : DeepdubClusterer) : Except PyErr Unit × DeepdubClusterer :=
  if argsGiven = paramCount then body ()
  else (.error (.typeError
    "generate_scatter_3d takes 0 positional arguments but 1 was given"), c)

/-- The body of `generate_scatter_3d`.  Its statements only construct a
PCA object and local copies of columns; it never assigns to
`self.sentence_df`.  Moreover the body references the bare name `self`,
which is not a parameter (the def has none) and not a module global, so
the first such reference would raise NameError; either way the instance's
collection is returned unchanged. -/
def generate_scatter_3d_body (c : DeepdubClusterer) :
    Except PyErr Unit × DeepdubClusterer :=
  if "self" ∈ moduleGlobals then (.ok (), c)
  else (.error (.nameError "self"), c)

/-- Invoking `generate_scatter_3d` as a bound method on an instance:
one argument (the instance) against zero declared parameters. -/
def DeepdubClusterer.generate_scatter_3d_call (c : DeepdubClusterer) :
    Except PyErr Unit × DeepdubClusterer :=
  invokeBoundMethod generate_scatter_3d_paramCount 1
    (fun _ => generate_scatter_3d_body c) c

/-- Collects a list of optionals when every entry is present; `none` as
soon as one entry is absent.  Models `tolist()` on a column followed by
`np.array`: a missing cell makes the conversion unusable downstream. -/
def allSome {α : Type} : List (Option α) → Option (List α)
  | [] => some []
  | none :: _ => none
  | some a :: rest => (allSome rest).map (fun xs => a :: xs)

/-- Squared Euclidean distance between two feature vectors. -/
def sqDist (a b : List ℚ) : ℚ :=
  (List.zipWith (fun x y => (x - y) * (x - y)) a b).sum

/-- Tail of the argmin scan: `i` is the index of the head of `cs` in the
original centroid list, `bestI`/`bestD` the best index and distance so
far. -/
def nearestAux (p : List ℚ) : List (List ℚ) → Nat → Nat → ℚ → Nat
  | [], _, bestI, _ => bestI
  | q :: rest, i, bestI, bestD =>
    if sqDist p q < bestD then nearestAux p rest (i + 1) i (sqDist p q)
    else nearestAux p rest (i + 1) bestI bestD

/-- Index of the centroid nearest to `p` (first on ties). -/
def nearestIdx (p : List ℚ) : List (List ℚ) → Nat
  | [] => 0
  | q :: rest => nearestAux p rest 1 0 (sqDist p q)

/-- Label assignment: each sample gets the index of its nearest centroid. -/
def assign (X cs : List (List ℚ)) : List Nat :=
  X.map (fun p => nearestIdx p cs)

/-- Mean of a set of points (`default` when the set is empty, keeping the
previous centroid for an empty cluster). -/
def meanPoint (default : List ℚ) : List (List ℚ) → List ℚ
  | [] => default
  | p :: rest =>
    (rest.foldl (fun a b => List.zipWith (fun x y => x + y) a b) p).map
      (fun x => x / ((rest.length + 1 : Nat) : ℚ))

/-- One centroid-update step: centroid `j` becomes the mean of the samples
currently assigned to it. -/
def updateCentroids (X cs : List (List ℚ)) : List (List ℚ) :=
  (List.range cs.length).map (fun j =>
    meanPoint (cs.getD j []) (X.filter (fun p => nearestIdx p cs == j)))

/-- Lloyd iterations with fuel (sklearn `max_iter = 300`), stopping when
the centroids are stable. -/
def lloyd : Nat → List (List ℚ) → List (List ℚ) → List (List ℚ)
  | 0, _, cs => cs
  | fuel + 1, X, cs =>
    let cs' := updateCentroids X cs
    if cs' = cs then cs else lloyd fuel X cs'

/-- Modelled from the spec: seeded deterministic centroid initialization —
`n_clusters` data points selected as a pure function of `random_state`. -/
def initCentroids (X : List (List ℚ)) (k seed : Nat) : List (List ℚ) :=
  (List.range k).map (fun i => X.getD ((seed + i) % X.length) [])

/-- Modelled from the spec: `sklearn.cluster.KMeans(n_clusters,
random_state).fit(X)` — a deterministic partition-based clustering
procedure (centroid-based, Euclidean distance, k-means semantics) that is
a pure function of the data, the cluster count and the seed.  Its own
input validation (`n_clusters ≥ 1`, `n_samples ≥ n_clusters`) runs inside
the library, raising a library error.  Returns (labels, centroids). -/
def kmeansFit (X : List (List ℚ)) (n_clusters random_state : Nat) :
    Except PyErr (List Nat × List (List ℚ)) :=
  if n_clusters = 0 then
    .error (.libraryError "n_clusters should be an integer greater than 0")
  else if X.length < n_clusters then
    .error (.libraryError "n_samples should be >= n_clusters")
  else
    let csf := lloyd 300 X (initCentroids X n_clusters random_state)
    .ok (assign X csf, csf)

/-- The column assignment `sentence_df['label'] = kmeans.labels_`:
row `i` receives label `i`. -/
def applyLabels (c : DeepdubClusterer) (labels : List Nat) :
    DeepdubClusterer :=
  { c with sentence_df := ⟨List.zipWith
      (fun r l => { r with label := some l }) c.sentence_df.rows labels⟩ }

/-- See `cluster`: the outcome once the embedding matrix `X` has been
built. -/
def clusterFit (g : Nat) (c : DeepdubClusterer) (n_clusters random_state : Nat)
    (X : List (List ℚ)) :
    Except PyErr (DataFrame × (List Nat × List (List ℚ)))
      × DeepdubClusterer × Nat :=
  match kmeansFit X n_clusters random_state with
  | .error e => (.error e, c, g)
  | .ok (labels, cents) =>
    (.ok ((applyLabels c labels).sentence_df, (labels, cents)),
     applyLabels c labels, g)

/-- `DeepdubClusterer.cluster`: stacks the `embedding` column into a
matrix (`np.array(...tolist())`, row order = record order), runs KMeans
with the given `n_clusters` and `random_state`, and assigns `labels_`
positionally to the `label` column.  The source performs no parameter
validation of its own: every failure (an unusable embedding column, or
KMeans rejecting the cluster count) originates in library code.  `g`
is the process-wide global random state (seeded once at module load);
KMeans receives an explicit `random_state`, so `g` is neither read nor
advanced.  Returns (result, post-state clusterer, post-state global
random state). -/
def cluster (g : Nat) (c : DeepdubClusterer) (n_clusters random_state : Nat) :
    Except PyErr (DataFrame × (List Nat × List (List ℚ)))
      × DeepdubClusterer × Nat :=
  match allSome (c.sentence_df.rows.map Row.embedding) with
  | none =>
    (.error (.libraryError "could not convert embedding column to a matrix"),
     c, g)
  | some X => clusterFit g c n_clusters random_state X

/-- The label assignment a `cluster` result carries (`none` on failure). -/
def clusterLabels
    (res : Except PyErr (DataFrame × (List Nat × List (List ℚ)))) :
    Option (List Nat) :=
  match res with
  | .ok (_, (labels, _)) => some labels
  | .error _ => none

/-- Whether a `cluster` result is the spec's fail-fast parameter error. -/
def isParamFailure
    (res : Except PyErr (DataFrame × (List Nat × List (List ℚ)))) : Bool :=
  match res with
  | .error (.paramError _) => true
  | _ => false

/-- Whether a `cluster` result is an error originating inside library
code. -/
def isLibraryFailure
    (res : Except PyErr (DataFrame × (List Nat × List (List ℚ)))) : Bool :=
  match res with
  | .error (.libraryError _) => true
  | _ => false

/-- Decidable equality of `Except` outcomes over decidable payloads. -/
instance {ε α : Type} [DecidableEq ε] [DecidableEq α] :
    DecidableEq (Except ε α) := fun a b =>
  match a, b with
  | .ok x, .ok y =>
    if h : x = y then .isTrue (by rw [h]) else .isFalse (by simp [h])
  | .error x, .error y =>
    if h : x = y then .isTrue (by rw [h]) else .isFalse (by simp [h])
  | .ok _, .error _ => .isFalse (by simp)
  | .error _, .ok _ => .isFalse (by simp)

/-! Concrete instances used to exercise the definitions. -/

/-- A record whose segment file exists (see `fsA`). -/
def rowA : Row := { hash := "a", sentence := "first utterance" }

/-- A record whose segment file is missing under `fsA`. -/
def rowB : Row := { hash := "b", sentence := "second utterance" }

/-- A small feature sequence standing for the content of an audio file. -/
def mfccSample : Mfcc := [[0], [1]]

/-- A filesystem on which exactly the segment file for hash `a` of project
`p` exists. -/
def fsA : FS := fun path =>
  if path = segmentPath (audioOutputDir "p") "a" then some mfccSample
  else none

/-- An arbitrary loaded model: an external black box fixed at
construction (its output is never reached by `generateEmbedding`). -/
def modelA : Mfcc → List ℚ := fun _ => List.replicate 512 0

/-- A constructed clusterer for project `p` holding the single record
`rowA`. -/
def cA : DeepdubClusterer :=
  { model := modelA
    AUDIO_OUTPUT_DIR := audioOutputDir "p"
    sentence_df := ⟨[rowA]⟩ }

/-- A constructed clusterer holding `rowA` (file present) followed by
`rowB` (file missing). -/
def cAB : DeepdubClusterer :=
  { model := modelA
    AUDIO_OUTPUT_DIR := audioOutputDir "p"
    sentence_df := ⟨[rowA, rowB]⟩ }

/-- Two records carrying embeddings, as left by a successful embedding
stage. -/
def rowE1 : Row := { hash := "a", sentence := "first utterance", embedding := some [0] }

/-- Second record with an embedding. -/
def rowE2 : Row := { hash := "b", sentence := "second utterance", embedding := some [10] }

/-- A clusterer whose records all have embeddings. -/
def cE : DeepdubClusterer :=
  { model := modelA
    AUDIO_OUTPUT_DIR := audioOutputDir "p"
    sentence_df := ⟨[rowE1, rowE2]⟩ }

/-- A clusterer with the same embedding column as `cE` but different
hashes and sentences (for comparing two runs over the same embeddings). -/
def cE' : DeepdubClusterer :=
  { model := modelA
    AUDIO_OUTPUT_DIR := audioOutputDir "q"
    sentence_df := ⟨[{ hash := "x", sentence := "sx", embedding := some [0] },
                    { hash := "y", sentence := "sy", embedding := some [10] }]⟩ }

/-- A clusterer with a single embedded record (fewer records than the
cluster counts used against it). -/
def cOne : DeepdubClusterer :=
  { model := modelA
    AUDIO_OUTPUT_DIR := audioOutputDir "p"
    sentence_df := ⟨[rowE1]⟩ }

/-- The DataFrame state `cluster 0 cE 2 123` leaves behind. -/
def dfE : DataFrame :=
  ⟨[{ hash := "a", sentence := "first utterance",
      embedding := some [0], label := some 1 },
    { hash := "b", sentence := "second utterance",
      embedding := some [10], label := some 0 }]⟩

/-! Helper lemmas. -/

/-- When `allSome` succeeds, the collected list is the entrywise
`Option.getD` image (every entry was present). -/
theorem allSome_eq_map {α : Type} (d : α) (L : List (Option α)) :
    ∀ xs, allSome L = some xs → xs = L.map (fun o => o.getD d) := by
  induction L with
  | nil =>
    intro xs h
    simp only [allSome, Option.some.injEq] at h
    simp [← h]
  | cons o rest ih =>
    intro xs h
    cases o with
    | none => simp [allSome] at h
    | some a =>
      simp only [allSome] at h
      cases hr : allSome rest with
      | none => rw [hr] at h; simp at h
      | some ys =>
        rw [hr] at h
        simp at h
        subst h
        simp [ih ys hr]

/-- `allSome` preserves length on success. -/
theorem allSome_length {α : Type} (d : α) (L : List (Option α))
    (xs : List α) (h : allSome L = some xs) : xs.length = L.length := by
  rw [allSome_eq_map d L xs h, List.length_map]

/-- The applymap over the hash column yields one embedding per record. -/
theorem mapEmbeddings_length (fs : FS) (c : DeepdubClusterer) :
    ∀ (rs : List Row) (es : List (List ℚ)),
      mapEmbeddings fs c rs = .ok es → es.length = rs.length := by
  intro rs
  induction rs with
  | nil =>
    intro es h
    simp only [mapEmbeddings, Except.ok.injEq] at h
    simp [← h]
  | cons r rest ih =>
    intro es h
    simp only [mapEmbeddings] at h
    cases hg : generateEmbedding fs c r.hash with
    | error e => rw [hg] at h; exact absurd h (by simp)
    | ok e =>
      rw [hg] at h
      cases hm : mapEmbeddings fs c rest with
      | error e2 => rw [hm] at h; exact absurd h (by simp)
      | ok es2 =>
        rw [hm] at h
        simp only [Except.ok.injEq] at h
        subst h
        simp [ih es2 hm]

/-- Mapping a projection that the per-row update leaves unchanged over a
`zipWith` update recovers the projection of the original rows. -/
theorem map_zipWith_left {α β γ : Type} (f : α → β → α) (p : α → γ)
    (hp : ∀ a b, p (f a b) = p a) :
    ∀ (l1 : List α) (l2 : List β), l1.length ≤ l2.length →
      (List.zipWith f l1 l2).map p = l1.map p := by
  intro l1
  induction l1 with
  | nil => intro l2 _; simp
  | cons a rest ih =>
    intro l2 h
    cases l2 with
    | nil => simp at h
    | cons b l2t =>
      simp only [List.zipWith_cons_cons, List.map_cons, hp]
      rw [ih l2t (by simpa using h)]

/-- Bound for the argmin scan: the result stays below `n` as long as the
running best does and the remaining indices do. -/
theorem nearestAux_lt (p : List ℚ) :
    ∀ (cs : List (List ℚ)) (i bestI : Nat) (d : ℚ) (n : Nat),
      bestI < n → i + cs.length ≤ n → nearestAux p cs i bestI d < n := by
  intro cs
  induction cs with
  | nil => intro i bestI d n hb _; simpa [nearestAux] using hb
  | cons q rest ih =>
    intro i bestI d n hb hl
    simp only [List.length_cons] at hl
    simp only [nearestAux]
    by_cases hc : sqDist p q < d
    · simp only [if_pos hc]
      exact ih (i + 1) i _ n (by omega) (by omega)
    · simp only [if_neg hc]
      exact ih (i + 1) bestI _ n hb (by omega)

/-- The nearest-centroid index is a valid index into the centroid list. -/
theorem nearestIdx_lt (p : List ℚ) (cs : List (List ℚ)) (h : cs ≠ []) :
    nearestIdx p cs < cs.length := by
  cases cs with
  | nil => exact absurd rfl h
  | cons q rest =>
    simp only [nearestIdx, List.length_cons]
    exact nearestAux_lt p rest 1 0 _ (rest.length + 1) (by omega) (by omega)

/-- A centroid-update step keeps the number of centroids. -/
theorem updateCentroids_length (X cs : List (List ℚ)) :
    (updateCentroids X cs).length = cs.length := by
  simp [updateCentroids]

/-- Lloyd iteration keeps the number of centroids. -/
theorem lloyd_length :
    ∀ (fuel : Nat) (X cs : List (List ℚ)),
      (lloyd fuel X cs).length = cs.length := by
  intro fuel
  induction fuel with
  | zero => intro X cs; rfl
  | succ f ih =>
    intro X cs
    show (if updateCentroids X cs = cs then cs
          else lloyd f X (updateCentroids X cs)).length = cs.length
    by_cases h : updateCentroids X cs = cs
    · simp [h]
    · rw [if_neg h, ih X (updateCentroids X cs), updateCentroids_length]

/-- Seeded initialization yields exactly `k` centroids. -/
theorem initCentroids_length (X : List (List ℚ)) (k seed : Nat) :
    (initCentroids X k seed).length = k := by
  simp [initCentroids]

/-- A successful `kmeansFit` returns one label per sample, `k` centroids,
and every label strictly below `k`. -/
theorem kmeansFit_ok (X : List (List ℚ)) (k s : Nat)
    (labels : List Nat) (cents : List (List ℚ))
    (h : kmeansFit X k s = .ok (labels, cents)) :
    labels.length = X.length ∧ cents.length = k ∧ ∀ l ∈ labels, l < k := by
  unfold kmeansFit at h
  by_cases hk : k = 0
  · rw [if_pos hk] at h; exact absurd h (by simp)
  · rw [if_neg hk] at h
    by_cases hn : X.length < k
    · rw [if_pos hn] at h; exact absurd h (by simp)
    · rw [if_neg hn] at h
      simp only [Except.ok.injEq, Prod.mk.injEq] at h
      obtain ⟨hl, hc⟩ := h
      have hcsf : (lloyd 300 X (initCentroids X k s)).length = k := by
        rw [lloyd_length, initCentroids_length]
      refine ⟨?_, ?_, ?_⟩
      · rw [← hl]; simp [assign]
      · rw [← hc]; exact hcsf
      · intro l hlmem
        rw [← hl] at hlmem
        simp only [assign, List.mem_map] at hlmem
        obtain ⟨pt, _, hpt⟩ := hlmem
        have hne : lloyd 300 X (initCentroids X k s) ≠ [] := by
          intro hnil
          rw [hnil] at hcsf
          simp at hcsf
          omega
        have hb := nearestIdx_lt pt _ hne
        rw [hcsf] at hb
        rw [← hpt]
        exact hb

/-! Claim theorems. -/

/-- C9: for every project name and every hash, the segment resolver is the
pure function mapping the hash to exactly
`./output_dir/{project_name}/audio_segments/{hash}_vocals.wav`. -/
theorem segment_resolver_fixed_convention (p h : String) :
    segmentPath (audioOutputDir p) h =
      "./output_dir/" ++ p ++ "/audio_segments/" ++ h ++ "_vocals.wav" := by
  have h1 : ("/audio_segments" : String) ++ "/" = "/audio_segments/" := rfl
  unfold segmentPath audioOutputDir
  rw [← h1]
  simp [String.append_assoc]

/-- C10: invoking `generate_scatter_3d` on any instance raises TypeError
at call binding (1 implicit argument against 0 declared parameters),
before any projection or rendering work occurs. -/
theorem generate_scatter_3d_always_typeerror (c : DeepdubClusterer) :
    (DeepdubClusterer.generate_scatter_3d_call c).fst =
      .error (.typeError
        "generate_scatter_3d takes 0 positional arguments but 1 was given") :=
  rfl

/-- C8: invoking the visualizer leaves the instance's record collection
unchanged — no column is added, removed or modified. -/
theorem generate_scatter_3d_no_mutation (c : DeepdubClusterer) :
    (DeepdubClusterer.generate_scatter_3d_call c).snd.sentence_df =
      c.sentence_df :=
  rfl

/-- C7: construction fails (with the weight-load error naming the chosen
path, explicit `model_path` when given, else the default) exactly when the
weight file at that path is missing or incompatible; the check happens in
`__init__` itself, so the failure is never deferred to a later embedding
call. -/
theorem init_fails_at_construction_iff_weights_bad
    (weightsOk : String → Bool) (loaded : Mfcc → List ℚ)
    (project_name : String) (df : DataFrame) (model_path : Option String) :
    DeepdubClusterer.init weightsOk loaded project_name df model_path =
        .error (.loadWeightsError (chosenModelPath model_path)) ↔
      weightsOk (chosenModelPath model_path) = false := by
  cases h : weightsOk (chosenModelPath model_path) <;>
    simp [DeepdubClusterer.init, h]

/-- C2 (evaluation at the failing input): for a record whose segment file
exists, `__generate_embedding` raises `NameError: name 'model' is not
defined` — the source references the bare name `model` instead of
`self.model` — so no length-512 embedding is ever returned. -/
theorem generateEmbedding_nameerror_despite_file :
    fsA (segmentPath (audioOutputDir "p") "a") = some mfccSample ∧
    generateEmbedding fsA cA "a" = .error (.nameError "model") :=
  ⟨rfl, rfl⟩

/-- C4 (evaluation at the failing input): on a collection whose first
record's segment file exists and whose second record's file is missing,
`get_embeddings` raises NameError for the first record instead of a
resolution error naming the second record's missing path; the collection
is left untouched. -/
theorem get_embeddings_nameerror_not_resolution :
    fsA (segmentPath (audioOutputDir "p") "b") = none ∧
    get_embeddings fsA cAB = (.error (.nameError "model"), cAB) :=
  ⟨rfl, rfl⟩

/-- Every failure of `kmeansFit` on an undersized or empty sample set is
the library's own validation error. -/
theorem kmeansFit_invalid_library_error (X : List (List ℚ)) (k s : Nat)
    (h : X.length < k ∨ X = []) :
    ∃ msg, kmeansFit X k s = .error (.libraryError msg) := by
  unfold kmeansFit
  by_cases hk : k = 0
  · exact ⟨_, by rw [if_pos hk]⟩
  · have hx : X.length < k := by
      cases h with
      | inl h1 => exact h1
      | inr h2 => subst h2; simp; omega
    exact ⟨_, by rw [if_neg hk, if_pos hx]⟩

/-- The labels a `clusterFit` outcome carries depend only on the matrix,
the cluster count and the seed — not on the global random state or the
rest of the collection. -/
theorem clusterFit_labels_indep (g g' : Nat) (c c' : DeepdubClusterer)
    (k s : Nat) (X : List (List ℚ)) :
    clusterLabels (clusterFit g c k s X).fst =
      clusterLabels (clusterFit g' c' k s X).fst := by
  unfold clusterFit
  cases hk : kmeansFit X k s with
  | error e => rfl
  | ok r => obtain ⟨ls, cs⟩ := r; rfl

/-- C1: with the same embedding column, the same `n_clusters` and the same
seed, two runs of `cluster` produce identical label assignments — whatever
the ambient process-wide random state is at each call, since the seed is
passed explicitly to the clustering procedure. -/
theorem cluster_deterministic (g g' : Nat) (c c' : DeepdubClusterer)
    (k s : Nat)
    (hemb : c.sentence_df.rows.map Row.embedding =
      c'.sentence_df.rows.map Row.embedding)
    (hall : ∀ r ∈ c.sentence_df.rows, r.embedding.isSome = true) :
    clusterLabels (cluster g c k s).fst =
      clusterLabels (cluster g' c' k s).fst := by
  unfold cluster
  rw [hemb]
  cases hx : allSome (c'.sentence_df.rows.map Row.embedding) with
  | none => rfl
  | some X => exact clusterFit_labels_indep g g' c c' k s X

/-- Witness for C1 at a concrete pair of runs: same embedding column,
different global random state, identical labels. -/
theorem cluster_deterministic_witness :
    (cE.sentence_df.rows.map Row.embedding =
      cE'.sentence_df.rows.map Row.embedding) ∧
    (∀ r ∈ cE.sentence_df.rows, r.embedding.isSome = true) ∧
    clusterLabels (cluster 0 cE 2 123).fst =
      clusterLabels (cluster 7 cE' 2 123).fst :=
  ⟨by decide, by decide,
   cluster_deterministic 0 7 cE cE' 2 123 (by decide) (by decide)⟩

/-- C3 counterexample: on a one-record collection with `n_clusters = 2`,
`cluster` does not fail with a pre-invocation parameter error; the failure
it produces is the clustering library's own validation error. -/
theorem cluster_no_param_precheck_counterexample :
    isParamFailure (cluster 0 cOne 2 123).fst = false ∧
    (cluster 0 cOne 2 123).fst =
      .error (.libraryError "n_samples should be >= n_clusters") :=
  ⟨rfl, rfl⟩

/-- A `clusterFit` outcome whose KMeans call fails with a library error is
a library failure, never the spec's parameter pre-check failure. -/
theorem clusterFit_library_failure (g : Nat) (c : DeepdubClusterer)
    (k s : Nat) (X : List (List ℚ))
    (h : ∃ msg, kmeansFit X k s = .error (.libraryError msg)) :
    isLibraryFailure (clusterFit g c k s X).fst = true ∧
    isParamFailure (clusterFit g c k s X).fst = false := by
  obtain ⟨msg, hmsg⟩ := h
  unfold clusterFit
  rw [hmsg]
  exact ⟨rfl, rfl⟩

/-- C3 amended: for every record collection and every `n_clusters`
strictly greater than the number of records (or an empty collection),
`cluster` fails with an exception originating inside the clustering
library (its own validation), not with a descriptive parameter error
raised before the clustering routine is invoked. -/
theorem cluster_invalid_nclusters_library_error (g : Nat)
    (c : DeepdubClusterer) (k s : Nat)
    (h : c.sentence_df.rows.length < k ∨ c.sentence_df.rows = []) :
    isLibraryFailure (cluster g c k s).fst = true ∧
    isParamFailure (cluster g c k s).fst = false := by
  unfold cluster
  cases hx : allSome (c.sentence_df.rows.map Row.embedding) with
  | none => exact ⟨rfl, rfl⟩
  | some X =>
    have hlen : X.length = c.sentence_df.rows.length := by
      have h2 := allSome_length ([] : List ℚ) _ X hx
      simpa using h2
    have h3 : X.length < k ∨ X = [] := by
      cases h with
      | inl h1 => exact Or.inl (by omega)
      | inr h2 =>
        right
        rw [← List.length_eq_zero, hlen, h2]
        rfl
    exact clusterFit_library_failure g c k s X
      (kmeansFit_invalid_library_error X k s h3)

/-- Witness for the amended C3 at a concrete input: one record,
`n_clusters = 3`. -/
theorem cluster_invalid_nclusters_library_error_witness :
    (cOne.sentence_df.rows.length < 3 ∨ cOne.sentence_df.rows = []) ∧
    (isLibraryFailure (cluster 0 cOne 3 123).fst = true ∧
     isParamFailure (cluster 0 cOne 3 123).fst = false) :=
  ⟨Or.inl (by decide),
   cluster_invalid_nclusters_library_error 0 cOne 3 123
     (Or.inl (by decide))⟩

/-- The embedding stage's frame condition, given the applymap yields one
embedding per record whenever it succeeds. -/
theorem finishEmbeddings_frame (c : DeepdubClusterer)
    (res : Except PyErr (List (List ℚ)))
    (hres : ∀ es, res = .ok es → es.length = c.sentence_df.rows.length) :
    (finishEmbeddings c res).snd.sentence_df.rows.map
        (fun r => (r.hash, r.sentence, r.label)) =
      c.sentence_df.rows.map (fun r => (r.hash, r.sentence, r.label)) ∧
    (finishEmbeddings c res).snd.sentence_df.rows.length =
      c.sentence_df.rows.length := by
  cases res with
  | error e => exact ⟨rfl, rfl⟩
  | ok es =>
    have hlen := hres es rfl
    constructor
    · exact map_zipWith_left
        (fun r e => ({ r with embedding := some e } : Row))
        (fun r => (r.hash, r.sentence, r.label)) (fun a b => rfl)
        c.sentence_df.rows es (by omega)
    · show (List.zipWith (fun r e => ({ r with embedding := some e } : Row))
          c.sentence_df.rows es).length = c.sentence_df.rows.length
      rw [List.length_zipWith]
      omega

/-- The clustering stage's frame condition, given the matrix has one row
per record. -/
theorem clusterFit_frame (g : Nat) (c : DeepdubClusterer) (k s : Nat)
    (X : List (List ℚ)) (hXlen : X.length = c.sentence_df.rows.length) :
    (clusterFit g c k s X).snd.fst.sentence_df.rows.map
        (fun r => (r.hash, r.sentence, r.embedding)) =
      c.sentence_df.rows.map (fun r => (r.hash, r.sentence, r.embedding)) ∧
    (clusterFit g c k s X).snd.fst.sentence_df.rows.length =
      c.sentence_df.rows.length := by
  unfold clusterFit
  cases hk : kmeansFit X k s with
  | error e => exact ⟨rfl, rfl⟩
  | ok r =>
    obtain ⟨labels, cents⟩ := r
    have hlab : labels.length = X.length :=
      (kmeansFit_ok X k s labels cents hk).1
    constructor
    · exact map_zipWith_left
        (fun r l => ({ r with label := some l } : Row))
        (fun r => (r.hash, r.sentence, r.embedding)) (fun a b => rfl)
        c.sentence_df.rows labels (by omega)
    · show (List.zipWith (fun r l => ({ r with label := some l } : Row))
          c.sentence_df.rows labels).length = c.sentence_df.rows.length
      rw [List.length_zipWith]
      omega

/-- C5: `get_embeddings` and `cluster` mutate the collection in place only
by filling the `embedding` and `label` columns respectively: the hash,
sentence and (for `get_embeddings`) label / (for `cluster`) embedding
columns are unchanged row by row, and no record is deleted (row count
preserved), on every execution path. -/
theorem pipeline_frame_conditions :
    (∀ (fs : FS) (c : DeepdubClusterer),
      (get_embeddings fs c).snd.sentence_df.rows.map
          (fun r => (r.hash, r.sentence, r.label)) =
        c.sentence_df.rows.map (fun r => (r.hash, r.sentence, r.label)) ∧
      (get_embeddings fs c).snd.sentence_df.rows.length =
        c.sentence_df.rows.length) ∧
    (∀ (g : Nat) (c : DeepdubClusterer) (k s : Nat),
      (cluster g c k s).snd.fst.sentence_df.rows.map
          (fun r => (r.hash, r.sentence, r.embedding)) =
        c.sentence_df.rows.map (fun r => (r.hash, r.sentence, r.embedding)) ∧
      (cluster g c k s).snd.fst.sentence_df.rows.length =
        c.sentence_df.rows.length) := by
  constructor
  · intro fs c
    exact finishEmbeddings_frame c (mapEmbeddings fs c c.sentence_df.rows)
      (fun es h => mapEmbeddings_length fs c c.sentence_df.rows es h)
  · intro g c k s
    unfold cluster
    cases hx : allSome (c.sentence_df.rows.map Row.embedding) with
    | none => exact ⟨rfl, rfl⟩
    | some X =>
      have hXlen : X.length = c.sentence_df.rows.length := by
        have h2 := allSome_length ([] : List ℚ) _ X hx
        simpa using h2
      exact clusterFit_frame g c k s X hXlen

/-- Inversion of a successful `clusterFit` outcome: the KMeans call
succeeded with exactly the returned labels and centroids, and the
DataFrame handed back is the label-assigned collection. -/
theorem clusterFit_ok_inv (g : Nat) (c : DeepdubClusterer) (k s : Nat)
    (X : List (List ℚ)) (df' : DataFrame) (labels : List Nat)
    (cents : List (List ℚ))
    (h : (clusterFit g c k s X).fst = .ok (df', (labels, cents))) :
    kmeansFit X k s = .ok (labels, cents) ∧
    df' = (applyLabels c labels).sentence_df := by
  unfold clusterFit at h
  cases hk : kmeansFit X k s with
  | error e =>
    rw [hk] at h
    have h2 : (Except.error e :
        Except PyErr (DataFrame × (List Nat × List (List ℚ)))) =
      .ok (df', (labels, cents)) := h
    simp at h2
  | ok r =>
    obtain ⟨ls, cs⟩ := r
    rw [hk] at h
    have h2 : (Except.ok ((applyLabels c ls).sentence_df, (ls, cs)) :
        Except PyErr (DataFrame × (List Nat × List (List ℚ)))) =
      .ok (df', (labels, cents)) := h
    simp only [Except.ok.injEq, Prod.mk.injEq] at h2
    obtain ⟨hdf, hls, hcs⟩ := h2
    subst hls
    subst hcs
    exact ⟨rfl, hdf.symm⟩

/-- C6: on a successful `cluster` run, the matrix handed to the clustering
routine is exactly the embedding column in record order (row i = embedding
of record i), the i-th returned label is assigned to the i-th record, and
every assigned label lies in `[0, n_clusters)`. -/
theorem cluster_matrix_rows_and_labels (g : Nat) (c : DeepdubClusterer)
    (k s : Nat) (df' : DataFrame) (labels : List Nat)
    (cents : List (List ℚ))
    (h : (cluster g c k s).fst = .ok (df', (labels, cents))) :
    allSome (c.sentence_df.rows.map Row.embedding) =
      some (c.sentence_df.rows.map (fun r => r.embedding.getD [])) ∧
    labels.length = c.sentence_df.rows.length ∧
    df'.rows = List.zipWith (fun r l => { r with label := some l })
      c.sentence_df.rows labels ∧
    ∀ l ∈ labels, l < k := by
  unfold cluster at h
  cases hx : allSome (c.sentence_df.rows.map Row.embedding) with
  | none =>
    rw [hx] at h
    have h2 : (Except.error (PyErr.libraryError
        "could not convert embedding column to a matrix") :
        Except PyErr (DataFrame × (List Nat × List (List ℚ)))) =
      .ok (df', (labels, cents)) := h
    simp at h2
  | some X =>
    rw [hx] at h
    have h2 : (clusterFit g c k s X).fst = .ok (df', (labels, cents)) := h
    obtain ⟨hk, hdf⟩ := clusterFit_ok_inv g c k s X df' labels cents h2
    have hmap : X = c.sentence_df.rows.map (fun r => r.embedding.getD []) := by
      have h3 := allSome_eq_map ([] : List ℚ) _ X hx
      rw [h3, List.map_map]
      rfl
    obtain ⟨hlen, _, hbound⟩ := kmeansFit_ok X k s labels cents hk
    refine ⟨?_, ?_, ?_, hbound⟩
    · exact congrArg some hmap
    · rw [hlen, hmap, List.length_map]
    · rw [hdf]
      rfl

/-- Witness for C6 at a concrete successful run (two records, two
clusters). -/
theorem cluster_matrix_rows_and_labels_witness :
    ((cluster 0 cE 2 123).fst = .ok (dfE, ([1, 0], [[10], [0]]))) ∧
    (allSome (cE.sentence_df.rows.map Row.embedding) =
       some (cE.sentence_df.rows.map (fun r => r.embedding.getD [])) ∧
     ([1, 0] : List Nat).length = cE.sentence_df.rows.length ∧
     dfE.rows = List.zipWith (fun r l => { r with label := some l })
       cE.sentence_df.rows [1, 0] ∧
     ∀ l ∈ ([1, 0] : List Nat), l < 2) :=
  have hEq : (cluster 0 cE 2 123).fst = .ok (dfE, ([1, 0], [[10], [0]])) := by
    decide
  ⟨hEq, cluster_matrix_rows_and_labels 0 cE 2 123 dfE [1, 0] [[10], [0]] hEq⟩
